import Mathlib

/-!
# Verification of the nws-query weather CLI against its specification

Shallow embedding of the Rust sources (`src/client.rs`, `src/models.rs`,
`src/error.rs`, `src/icons.rs`, `src/output.rs`, `src/config.rs`, and the
duplicated prototype in `src/main.rs`).

Modelling conventions:
* `f64` is modelled as `ℚ`; Rust's `f64::round` (round half away from zero)
  is `f64round` below.
* `i64` is modelled as `ℤ`, `u32`/`u64` as `ℕ`.
* The HTTP transport is an oracle: `get_with_retry` receives the list of
  per-attempt outcomes (one entry per attempt the loop may examine; the
  source's `MAX_RETRIES` bound corresponds to the list having exactly
  `MAX_RETRIES` entries, stated as a hypothesis in the theorems).
* Functions that perform network calls additionally return trace data
  (delays slept, attempts consumed, whether/which fetch was issued) so that
  the specification's statements about retry scheduling and about calls
  being made or skipped are observable.
* Fallible Rust functions returning `Result<T, WeatherError>` are embedded
  as `Except WeatherError T`.
-/

set_option maxRecDepth 4000

deriving instance DecidableEq for Except

/-- Floor of a rational, computed by flooring integer division on the
numerator and denominator (`Int.fdiv` rounds toward negative infinity). -/
def qfloor (q : ℚ) : ℤ := Int.fdiv q.num q.den

/-- Rust's `f64::round`: round half away from zero.  For `0 ≤ q` this is
`⌊q + 1/2⌋ = (2·num + den).fdiv (2·den)`, and for `q < 0` it is
`-⌊-q + 1/2⌋`; computed on `num`/`den` so that the kernel can evaluate it. -/
def f64round (q : ℚ) : ℤ :=
  if 0 ≤ q.num then Int.fdiv (2 * q.num + q.den) (2 * q.den)
  else -Int.fdiv (-(2 * q.num) + q.den) (2 * q.den)

/-- Round to nearest, ties to even — the rounding Rust's float `Display`
precision formatting (`{:.2}`, `{:.0}`) applies to the exact value.
`rem = num - ⌊q⌋·den` is the fractional part scaled by `den`, so the
fraction is below, above, or exactly one half according as `2·rem` compares
with `den`. -/
def roundHalfEven (q : ℚ) : ℤ :=
  let f := qfloor q
  let rem := q.num - f * q.den
  if 2 * rem < (q.den : ℤ) then f
  else if (q.den : ℤ) < 2 * rem then f + 1
  else if f % 2 = 0 then f else f + 1

/-- Rust `format!("{:.2}", x)` on a float value modelled as `ℚ`: sign,
then the absolute value rounded to two decimal places (`|q|·100` is
`mkRat (|num|·100) den`). -/
def fmt2 (q : ℚ) : String :=
  let s := if q.num < 0 then "-" else ""
  let m := (roundHalfEven (mkRat (q.num.natAbs * 100) q.den)).toNat
  let frac := m % 100
  s ++ toString (m / 100) ++ "." ++ (if frac < 10 then "0" else "") ++ toString frac

/-- `src/error.rs`: `WeatherError`. Error payloads that are foreign error
objects (`reqwest::Error`, `serde_json::Error`, `ParseFloatError`) are
modelled as their message strings. -/
inductive WeatherError where
  | Network (msg : String)
  | Json (msg : String)
  | Parse (msg : String)
  | InvalidZip (zip : String)
  | LocationNotFound
  | NoWeatherData
  | Api (msg : String)
  | InvalidCoordinates
deriving DecidableEq, Repr

/-- `src/models.rs`: `ZippopotamPlace`. -/
structure ZippopotamPlace where
  place_name : String
  longitude : String
  latitude : String
deriving DecidableEq, Repr

/-- `src/models.rs`: `ZippopotamResponse`. -/
structure ZippopotamResponse where
  places : List ZippopotamPlace
deriving DecidableEq, Repr

/-- `src/models.rs`: `NWSPointProperties`. -/
structure NWSPointProperties where
  grid_id : String
  grid_x : ℤ
  grid_y : ℤ
  observation_stations : String
deriving DecidableEq, Repr

/-- `src/models.rs`: `NWSPointResponse`. -/
structure NWSPointResponse where
  properties : NWSPointProperties
deriving DecidableEq, Repr

/-- `src/models.rs`: `ForecastPeriod`. -/
structure ForecastPeriod where
  temperature : ℤ
  temperature_unit : String
  short_forecast : String
deriving DecidableEq, Repr

/-- `src/models.rs`: `ForecastProperties`. -/
structure ForecastProperties where
  periods : List ForecastPeriod
deriving DecidableEq, Repr

/-- `src/models.rs`: `ForecastResponse`. -/
structure ForecastResponse where
  properties : ForecastProperties
deriving DecidableEq, Repr

/-- `src/models.rs`: `StationProperties`. -/
structure StationProperties where
  station_identifier : String
deriving DecidableEq, Repr

/-- `src/models.rs`: `StationFeature`. -/
structure StationFeature where
  properties : StationProperties
deriving DecidableEq, Repr

/-- `src/models.rs`: `StationsResponse`. -/
structure StationsResponse where
  features : List StationFeature
deriving DecidableEq, Repr

/-- `src/models.rs`: `ObservationValue<f64>`. -/
structure ObservationValue where
  value : Option ℚ
deriving DecidableEq, Repr

/-- `src/models.rs`: `ObservationProperties`. -/
structure ObservationProperties where
  temperature : ObservationValue
  relative_humidity : Option ObservationValue
  wind_speed : Option ObservationValue
  wind_direction : Option ObservationValue
deriving DecidableEq, Repr

/-- `src/models.rs`: `ObservationResponse`. -/
structure ObservationResponse where
  properties : ObservationProperties
deriving DecidableEq, Repr

/-- `src/models.rs`: `Location`. -/
structure Location where
  lat : ℚ
  lon : ℚ
  name : String
deriving DecidableEq, Repr

/-- `src/models.rs`: `WeatherData`. -/
structure WeatherData where
  temperature : ℤ
  condition : String
  humidity : Option ℚ
  wind_speed : Option ℚ
  wind_direction : Option ℚ
deriving DecidableEq, Repr

/-- `src/models.rs`: `WaybarOutput`. -/
structure WaybarOutput where
  text : String
  tooltip : String
  class' : String
deriving DecidableEq, Repr

/-- Outcome of one attempt of the retry loop in `get_with_retry`
(`src/client.rs:66-82`): the transport either fails to produce a response
(`send()` returned `Err`), produces a non-2xx response (with its status code
and body text), or produces a 2xx response whose body either fails or
succeeds to decode as `T`. -/
inductive AttemptOutcome (α : Type) where
  | transportError (msg : String)
  | httpError (status : Nat) (body : String)
  | decodeError (msg : String)
  | success (value : α)
deriving DecidableEq, Repr

/-- Whether an attempt outcome is the successful (2xx + decoded) case. -/
def AttemptOutcome.isSuccess {α : Type} : AttemptOutcome α → Bool
  | .success _ => true
  | _ => false

/-- `format!("HTTP {}: {}", status, body)` from `src/client.rs:74-78`
(the status is rendered as its numeric code). -/
def httpErrorText (status : Nat) (body : String) : String :=
  "HTTP " ++ toString status ++ ": " ++ body

/-- The `WeatherError` the retry loop records for a failed attempt:
transport errors and 2xx-decode errors become `WeatherError::Network`
(both are `reqwest::Error` in the source), non-2xx responses become
`WeatherError::Api` with status and body (`src/client.rs:71-81`). -/
def outcomeError {α : Type} : AttemptOutcome α → WeatherError
  | .transportError m => .Network m
  | .httpError s b => .Api (httpErrorText s b)
  | .decodeError m => .Network m
  | .success _ => .Api "Unknown error"

/-- Oracle for the four fetch stages of `get_weather_data`: the result each
retried fetch would produce (point lookup, forecast, station list, and the
latest-observation fetch keyed by station identifier). -/
structure FetchEnv where
  point : Except WeatherError NWSPointResponse
  forecast : Except WeatherError ForecastResponse
  stations : Except WeatherError StationsResponse
  observation : String → Except WeatherError ObservationResponse

/-- Outcome of one readiness probe in `wait_for_network`
(`src/client.rs:44-51`): the 3-second timeout elapsed, the HEAD request
errored, or any HTTP response arrived (with some status code). -/
inductive ProbeOutcome where
  | timedOut
  | sendError (msg : String)
  | response (status : Nat)
deriving DecidableEq, Repr

namespace Client

/-- `src/client.rs:12`. -/
def MAX_RETRIES : Nat := 5

/-- `src/client.rs:13`. -/
def RETRY_DELAY_MS : Nat := 2000

/-- `src/client.rs:16` (`9.0 / 5.0`, exact in `ℚ`). -/
def CELSIUS_TO_FAHRENHEIT_MULTIPLIER : ℚ := 9 / 5

/-- `src/client.rs:17`. -/
def CELSIUS_TO_FAHRENHEIT_OFFSET : ℚ := 32

/-- The retry loop of `get_with_retry` (`src/client.rs:62-90`), one list
entry per attempt, parameterised by the backoff base delay
(`RETRY_DELAY_MS` at the use site).  Arguments: current attempt number,
`last_error` so far, remaining attempt outcomes.  Returns the result, the
list of backoff delays slept (in ms, in order: `delay * attempt` is slept
after a failed attempt only when further attempts remain, i.e. when the
remaining list is nonempty), and the number of attempts consumed. -/
def retryGo {α : Type} (baseDelay : Nat) :
    Nat → Option WeatherError → List (AttemptOutcome α) →
    Except WeatherError α × List Nat × Nat
  | _, last, [] => (.error (last.getD (.Api "Unknown error")), [], 0)
  | _, _, .success v :: _ => (.ok v, [], 1)
  | attempt, _, .transportError m :: rest =>
    let r := retryGo baseDelay (attempt + 1) (some (.Network m)) rest
    (r.1, (if rest.isEmpty then r.2.1 else baseDelay * attempt :: r.2.1), r.2.2 + 1)
  | attempt, _, .httpError s b :: rest =>
    let r := retryGo baseDelay (attempt + 1) (some (.Api (httpErrorText s b))) rest
    (r.1, (if rest.isEmpty then r.2.1 else baseDelay * attempt :: r.2.1), r.2.2 + 1)
  | attempt, _, .decodeError m :: rest =>
    let r := retryGo baseDelay (attempt + 1) (some (.Network m)) rest
    (r.1, (if rest.isEmpty then r.2.1 else baseDelay * attempt :: r.2.1), r.2.2 + 1)

/-- `WeatherClient::get_with_retry` (`src/client.rs:62-90`), over the
attempt-outcome oracle.  Faithfulness to the source requires
`outcomes.length = MAX_RETRIES` (the loop runs `for attempt in 1..=MAX_RETRIES`);
theorems state that as a hypothesis. -/
def get_with_retry {α : Type} (outcomes : List (AttemptOutcome α)) :
    Except WeatherError α × List Nat × Nat :=
  retryGo RETRY_DELAY_MS 1 none outcomes

/-- `WeatherClient::resolve_zip_location` (`src/client.rs:107-126`).
`parse` abstracts Rust's `str::parse::<f64>` (error message on failure);
`geocode` is the oracle result of the retried zippopotam fetch.  The `Bool`
in the result records whether that network fetch was issued. -/
def resolve_zip_location (parse : String → Except String ℚ)
    (geocode : Except WeatherError ZippopotamResponse) (zip : String) :
    Except WeatherError Location × Bool :=
  if !zip.data.all (fun c => c.isDigit) || zip.length != 5 then
    (.error (.InvalidZip zip), false)
  else
    match geocode with
    | .error e => (.error e, true)
    | .ok response =>
      match response.places with
      | [] => (.error .LocationNotFound, true)
      | place :: _ =>
        match parse place.latitude with
        | .error e => (.error (.Parse e), true)
        | .ok lat =>
          match parse place.longitude with
          | .error e => (.error (.Parse e), true)
          | .ok lon => (.ok ⟨lat, lon, place.place_name⟩, true)

/-- `WeatherClient::validate_coordinates` (`src/client.rs:128-133`). -/
def validate_coordinates (lat lon : ℚ) : Except WeatherError Unit :=
  if ¬(-90 ≤ lat ∧ lat ≤ 90) ∨ ¬(-180 ≤ lon ∧ lon ≤ 180) then
    .error .InvalidCoordinates
  else
    .ok ()

/-- `WeatherClient::resolve_location` (`src/client.rs:92-105`).  The `Bool`
records whether a network fetch was issued. -/
def resolve_location (parse : String → Except String ℚ)
    (geocode : Except WeatherError ZippopotamResponse)
    (zip : Option String) (lat lon : Option ℚ) :
    Except WeatherError Location × Bool :=
  match zip with
  | some z => resolve_zip_location parse geocode z
  | none =>
    match lat, lon with
    | some la, some lo =>
      match validate_coordinates la lo with
      | .error e => (.error e, false)
      | .ok _ =>
        (.ok ⟨la, lo, "Coordinates (" ++ fmt2 la ++ ", " ++ fmt2 lo ++ ")"⟩, false)
    | _, _ => (.error .LocationNotFound, false)

/-- `WeatherClient::get_weather_data` (`src/client.rs:135-188`), over the
stage-result oracle.  The second component records the station identifier
for which the stage-4 observation fetch was issued (`none` when it was never
attempted).  URL construction is absorbed into the oracle: each stage's
retried fetch result is supplied directly. -/
def get_weather_data (env : FetchEnv) :
    Except WeatherError WeatherData × Option String :=
  match env.point with
  | .error e => (.error e, none)
  | .ok _nws_point =>
    match env.forecast, env.stations with
    | .error e, _ => (.error e, none)
    | .ok _, .error e => (.error e, none)
    | .ok forecast, .ok stations =>
      match forecast.properties.periods with
      | [] => (.error .NoWeatherData, none)
      | first_period :: _ =>
        let baseTemp : ℤ :=
          if first_period.temperature_unit = "F" then
            f64round (((first_period.temperature : ℚ) - CELSIUS_TO_FAHRENHEIT_OFFSET) /
              CELSIUS_TO_FAHRENHEIT_MULTIPLIER)
          else first_period.temperature
        let wd : WeatherData :=
          { temperature := baseTemp
            condition := first_period.short_forecast
            humidity := none
            wind_speed := none
            wind_direction := none }
        match stations.features with
        | [] => (.ok wd, none)
        | station :: _ =>
          let sid := station.properties.station_identifier
          match env.observation sid with
          | .error _ => (.ok wd, some sid)
          | .ok observation =>
            (.ok { wd with
                temperature :=
                  match observation.properties.temperature.value with
                  | some temp_c => f64round temp_c
                  | none => wd.temperature
                humidity := observation.properties.relative_humidity.bind (fun h => h.value)
                wind_speed := observation.properties.wind_speed.bind (fun w => w.value)
                wind_direction := observation.properties.wind_direction.bind (fun w => w.value) },
              some sid)

/-- `src/client.rs:36-40`: the probe endpoints of `wait_for_network`. -/
def test_urls : List String :=
  ["https://api.weather.gov", "https://8.8.8.8", "https://1.1.1.1"]

/-- Inner candidate loop of one probe round (`src/client.rs:43-52`): try
each url in order; succeed on the first that yields any HTTP response
(regardless of status); count probes issued. -/
def probeRound (oracle : Nat → String → ProbeOutcome) (round : Nat) :
    List String → Bool × Nat
  | [] => (false, 0)
  | u :: rest =>
    match oracle round u with
    | .response _ => (true, 1)
    | _ =>
      let p := probeRound oracle round rest
      (p.1, p.2 + 1)

/-- Round loop of `wait_for_network` (`src/client.rs:42-59`) over the list
of remaining round numbers.  Returns the result, the number of 2000 ms
inter-round sleeps performed (slept only when further rounds remain), and
the total number of probes issued. -/
def wfnLoop (oracle : Nat → String → ProbeOutcome) :
    List Nat → Except WeatherError Unit × Nat × Nat
  | [] => (.error (.Api "Network connectivity check failed"), 0, 0)
  | r :: rest =>
    let pr := probeRound oracle r test_urls
    if pr.1 then (.ok (), 0, pr.2)
    else
      let p := wfnLoop oracle rest
      (p.1, (if rest.isEmpty then p.2.1 else p.2.1 + 1), pr.2 + p.2.2)

/-- `WeatherClient::wait_for_network` (`src/client.rs:35-60`):
`for attempt in 1..=10`. -/
def wait_for_network (oracle : Nat → String → ProbeOutcome) :
    Except WeatherError Unit × Nat × Nat :=
  wfnLoop oracle (List.range' 1 10)

end Client

namespace Mainrs

/-- `src/main.rs:11`. -/
def MAX_RETRIES : Nat := 3

/-- `src/main.rs:12`. -/
def RETRY_DELAY_MS : Nat := 1000

/-- `src/main.rs:15` (`9.0 / 5.0`, exact in `ℚ`). -/
def CELSIUS_TO_FAHRENHEIT_MULTIPLIER : ℚ := 9 / 5

/-- `src/main.rs:16`. -/
def CELSIUS_TO_FAHRENHEIT_OFFSET : ℚ := 32

/-- The retry loop of the prototype `get_with_retry` (`src/main.rs:242-270`);
same shape as `Client.retryGo`, embedded separately because the source
duplicates the code. -/
def retryGo {α : Type} (baseDelay : Nat) :
    Nat → Option WeatherError → List (AttemptOutcome α) →
    Except WeatherError α × List Nat × Nat
  | _, last, [] => (.error (last.getD (.Api "Unknown error")), [], 0)
  | _, _, .success v :: _ => (.ok v, [], 1)
  | attempt, _, .transportError m :: rest =>
    let r := retryGo baseDelay (attempt + 1) (some (.Network m)) rest
    (r.1, (if rest.isEmpty then r.2.1 else baseDelay * attempt :: r.2.1), r.2.2 + 1)
  | attempt, _, .httpError s b :: rest =>
    let r := retryGo baseDelay (attempt + 1) (some (.Api (httpErrorText s b))) rest
    (r.1, (if rest.isEmpty then r.2.1 else baseDelay * attempt :: r.2.1), r.2.2 + 1)
  | attempt, _, .decodeError m :: rest =>
    let r := retryGo baseDelay (attempt + 1) (some (.Network m)) rest
    (r.1, (if rest.isEmpty then r.2.1 else baseDelay * attempt :: r.2.1), r.2.2 + 1)

/-- Prototype `WeatherClient::get_with_retry` (`src/main.rs:242-270`):
faithfulness requires `outcomes.length = Mainrs.MAX_RETRIES` (= 3). -/
def get_with_retry {α : Type} (outcomes : List (AttemptOutcome α)) :
    Except WeatherError α × List Nat × Nat :=
  retryGo RETRY_DELAY_MS 1 none outcomes

/-- Prototype `WeatherClient::resolve_zip_location` (`src/main.rs:287-306`). -/
def resolve_zip_location (parse : String → Except String ℚ)
    (geocode : Except WeatherError ZippopotamResponse) (zip : String) :
    Except WeatherError Location × Bool :=
  if !zip.data.all (fun c => c.isDigit) || zip.length != 5 then
    (.error (.InvalidZip zip), false)
  else
    match geocode with
    | .error e => (.error e, true)
    | .ok response =>
      match response.places with
      | [] => (.error .LocationNotFound, true)
      | place :: _ =>
        match parse place.latitude with
        | .error e => (.error (.Parse e), true)
        | .ok lat =>
          match parse place.longitude with
          | .error e => (.error (.Parse e), true)
          | .ok lon => (.ok ⟨lat, lon, place.place_name⟩, true)

/-- Prototype `WeatherClient::validate_coordinates` (`src/main.rs:308-313`). -/
def validate_coordinates (lat lon : ℚ) : Except WeatherError Unit :=
  if ¬(-90 ≤ lat ∧ lat ≤ 90) ∨ ¬(-180 ≤ lon ∧ lon ≤ 180) then
    .error .InvalidCoordinates
  else
    .ok ()

/-- Prototype `WeatherClient::resolve_location` (`src/main.rs:272-285`). -/
def resolve_location (parse : String → Except String ℚ)
    (geocode : Except WeatherError ZippopotamResponse)
    (zip : Option String) (lat lon : Option ℚ) :
    Except WeatherError Location × Bool :=
  match zip with
  | some z => resolve_zip_location parse geocode z
  | none =>
    match lat, lon with
    | some la, some lo =>
      match validate_coordinates la lo with
      | .error e => (.error e, false)
      | .ok _ =>
        (.ok ⟨la, lo, "Coordinates (" ++ fmt2 la ++ ", " ++ fmt2 lo ++ ")"⟩, false)
    | _, _ => (.error .LocationNotFound, false)

/-- Prototype `WeatherClient::get_weather_data` (`src/main.rs:315-368`). -/
def get_weather_data (env : FetchEnv) :
    Except WeatherError WeatherData × Option String :=
  match env.point with
  | .error e => (.error e, none)
  | .ok _nws_point =>
    match env.forecast, env.stations with
    | .error e, _ => (.error e, none)
    | .ok _, .error e => (.error e, none)
    | .ok forecast, .ok stations =>
      match forecast.properties.periods with
      | [] => (.error .NoWeatherData, none)
      | first_period :: _ =>
        let baseTemp : ℤ :=
          if first_period.temperature_unit = "F" then
            f64round (((first_period.temperature : ℚ) - CELSIUS_TO_FAHRENHEIT_OFFSET) /
              CELSIUS_TO_FAHRENHEIT_MULTIPLIER)
          else first_period.temperature
        let wd : WeatherData :=
          { temperature := baseTemp
            condition := first_period.short_forecast
            humidity := none
            wind_speed := none
            wind_direction := none }
        match stations.features with
        | [] => (.ok wd, none)
        | station :: _ =>
          let sid := station.properties.station_identifier
          match env.observation sid with
          | .error _ => (.ok wd, some sid)
          | .ok observation =>
            (.ok { wd with
                temperature :=
                  match observation.properties.temperature.value with
                  | some temp_c => f64round temp_c
                  | none => wd.temperature
                humidity := observation.properties.relative_humidity.bind (fun h => h.value)
                wind_speed := observation.properties.wind_speed.bind (fun w => w.value)
                wind_direction := observation.properties.wind_direction.bind (fun w => w.value) },
              some sid)

end Mainrs

/-- `src/config.rs`: `TemperatureUnit`. -/
inductive TemperatureUnit where
  | Fahrenheit
  | Celsius
deriving DecidableEq, Repr

/-- `src/config.rs`: `IconSet`. -/
inductive IconSet where
  | Unicode
  | Emoji
  | Text
  | NerdFont
deriving DecidableEq, Repr

/-- `src/config.rs`: `OutputFormat`. -/
inductive OutputFormat where
  | Waybar
  | Plain
  | Json
deriving DecidableEq, Repr

/-- `src/config.rs`: `Args` (CLI options, as already parsed by clap). -/
structure Args where
  zip : Option String
  lat : Option ℚ
  lon : Option ℚ
  unit : TemperatureUnit
  icons : IconSet
  detailed : Bool
  wait_for_network : Bool
  format : OutputFormat

/-- Whether `pat` occurs at the head of `s` (character lists). -/
def matchesAt : List Char → List Char → Bool
  | [], _ => true
  | _ :: _, [] => false
  | p :: ps, c :: cs => p == c && matchesAt ps cs

/-- Whether `pat` occurs contiguously anywhere in `s` (character lists). -/
def hasSub (pat : List Char) : List Char → Bool
  | [] => matchesAt pat []
  | c :: rest => matchesAt pat (c :: rest) || hasSub pat rest

/-- Rust `str::contains` for literal patterns: substring containment. -/
def strContains (s pat : String) : Bool := hasSub pat.data s.data

/-- Icon string literals of `src/icons.rs` (`get_weather_icon`), with the
exact characters the file contains.  Note the NerdFont literal on line 13
(`mostly sunny` branch), line 15 (`cloud`/`overcast` branch) and line 33
(`wind` branch) are the same three-character string. -/
def nfDaySunny : String := "\u00f3\u00b0\u2013\u2122"

/-- `src/icons.rs:11` (NerdFont `partly` branch). -/
def nfDayCloudy : String := "\u00f3\u00b0\u2013\u2022"

/-- `src/icons.rs:13` (NerdFont `mostly sunny` branch). -/
def nfDaySunnyOvercast : String := "\u00f3\u00b0\u2013"

/-- `src/icons.rs:15` (NerdFont `cloud`/`overcast` branch); the same
characters as `nfDaySunnyOvercast`. -/
def nfCloudy : String := "\u00f3\u00b0\u2013"

/-- `src/icons.rs:17`. -/
def nfThunderstorm : String := "\u00f3\u00b0\u2013\u201c"

/-- `src/icons.rs:20`. -/
def nfSprinkle : String := "\u00f3\u00b0\u2013\u2014"

/-- `src/icons.rs:22`. -/
def nfRain : String := "\u00f3\u00b0\u2013\u2013"

/-- `src/icons.rs:26`. -/
def nfSnow : String := "\u00f3\u00b0\u2013\u02dc"

/-- `src/icons.rs:28`. -/
def nfSnowHeavy : String := "\u00f3\u00b0\u00bc\u00b6"

/-- `src/icons.rs:31`. -/
def nfFog : String := "\u00f3\u00b0\u2013\u2018"

/-- `src/icons.rs:33` (NerdFont `wind` branch); the same characters as
`nfDaySunnyOvercast`. -/
def nfStrongWind : String := "\u00f3\u00b0\u2013"

/-- `src/icons.rs:35`. -/
def nfHot : String := "\u00f3\u00b0\u201d"

/-- `src/icons.rs:37`. -/
def nfSnowflakeCold : String := "\u00f3\u00b0\u201d\u2019"

/-- `src/icons.rs:39`. -/
def nfNa : String := "\u00f3\u00b0\u2013\u0161"

/-- `src/icons.rs:44` (Unicode `sunny`/`clear` branch). -/
def uniSunny : String := "\u00e2\u02dc\u20ac"

/-- `src/icons.rs:46`. -/
def uniPartly : String := "\u00e2\u203a\u2026"

/-- `src/icons.rs:48` (Unicode `mostly sunny` branch). -/
def uniMostlySunny : String := "\u00f0\u0178\u0152\u00a4"

/-- `src/icons.rs:50`. -/
def uniCloud : String := "\u00e2\u02dc"

/-- `src/icons.rs:52`. -/
def uniThunder : String := "\u00e2\u203a\u02c6"

/-- `src/icons.rs:54`. -/
def uniRain : String := "\u00f0\u0178\u0152\u00a7"

/-- `src/icons.rs:56`. -/
def uniSnow : String := "\u00e2\u201e"

/-- `src/icons.rs:58`. -/
def uniFog : String := "\u00f0\u0178\u0152\u00ab"

/-- `src/icons.rs:60`. -/
def uniWind : String := "\u00f0\u0178\u2019\u00a8"

/-- `src/icons.rs:62`. -/
def uniNa : String := "\u00f0\u0178\u0152\u00a1"

/-- `src/icons.rs:67` (Emoji `sunny`/`clear` branch). -/
def emoSunny : String := "\u00e2\u02dc\u20ac\u00ef\u00b8"

/-- `src/icons.rs:69`. -/
def emoPartly : String := "\u00e2\u203a\u2026"

/-- `src/icons.rs:71` (Emoji `mostly sunny` branch). -/
def emoMostlySunny : String := "\u00f0\u0178\u0152\u00a4\u00ef\u00b8"

/-- `src/icons.rs:73`. -/
def emoCloud : String := "\u00e2\u02dc\u00ef\u00b8"

/-- `src/icons.rs:75`. -/
def emoThunder : String := "\u00e2\u203a\u02c6\u00ef\u00b8"

/-- `src/icons.rs:77`. -/
def emoRain : String := "\u00f0\u0178\u0152\u00a7\u00ef\u00b8"

/-- `src/icons.rs:79`. -/
def emoSnow : String := "\u00e2\u201e\u00ef\u00b8"

/-- `src/icons.rs:81`. -/
def emoFog : String := "\u00f0\u0178\u0152\u00ab\u00ef\u00b8"

/-- `src/icons.rs:83`. -/
def emoWind : String := "\u00f0\u0178\u2019\u00a8"

/-- `src/icons.rs:85`. -/
def emoNa : String := "\u00f0\u0178\u0152\u00a1\u00ef\u00b8"

/-- Rust `str::to_lowercase`, modelled character-wise via `Char.toLower`
(every substring pattern tested below is ASCII). -/
def rustToLower (s : String) : String := ⟨s.data.map Char.toLower⟩

/-- `get_weather_icon` (`src/icons.rs:3-112`). -/
def get_weather_icon (condition : String) (icon_set : IconSet) : String :=
  let condition_lower := rustToLower condition
  match icon_set with
  | .NerdFont =>
    if strContains condition_lower "sunny" || strContains condition_lower "clear" then
      nfDaySunny
    else if strContains condition_lower "partly" then nfDayCloudy
    else if strContains condition_lower "mostly sunny" then nfDaySunnyOvercast
    else if strContains condition_lower "cloud" || strContains condition_lower "overcast" then
      nfCloudy
    else if strContains condition_lower "thunder" || strContains condition_lower "storm" then
      nfThunderstorm
    else if strContains condition_lower "rain" || strContains condition_lower "showers" then
      (if strContains condition_lower "light" then nfSprinkle else nfRain)
    else if strContains condition_lower "snow" then
      (if strContains condition_lower "light" then nfSnow else nfSnowHeavy)
    else if strContains condition_lower "fog" || strContains condition_lower "mist" then nfFog
    else if strContains condition_lower "wind" then nfStrongWind
    else if strContains condition_lower "hot" then nfHot
    else if strContains condition_lower "cold" then nfSnowflakeCold
    else nfNa
  | .Unicode =>
    if strContains condition_lower "sunny" || strContains condition_lower "clear" then
      uniSunny
    else if strContains condition_lower "partly" then uniPartly
    else if strContains condition_lower "mostly sunny" then uniMostlySunny
    else if strContains condition_lower "cloud" then uniCloud
    else if strContains condition_lower "thunder" then uniThunder
    else if strContains condition_lower "rain" || strContains condition_lower "showers" then
      uniRain
    else if strContains condition_lower "snow" then uniSnow
    else if strContains condition_lower "fog" || strContains condition_lower "mist" then uniFog
    else if strContains condition_lower "wind" then uniWind
    else uniNa
  | .Emoji =>
    if strContains condition_lower "sunny" || strContains condition_lower "clear" then
      emoSunny
    else if strContains condition_lower "partly" then emoPartly
    else if strContains condition_lower "mostly sunny" then emoMostlySunny
    else if strContains condition_lower "cloud" then emoCloud
    else if strContains condition_lower "thunder" then emoThunder
    else if strContains condition_lower "rain" || strContains condition_lower "showers" then
      emoRain
    else if strContains condition_lower "snow" then emoSnow
    else if strContains condition_lower "fog" || strContains condition_lower "mist" then emoFog
    else if strContains condition_lower "wind" then emoWind
    else emoNa
  | .Text =>
    if strContains condition_lower "sunny" || strContains condition_lower "clear" then
      "SUN"
    else if strContains condition_lower "partly" then "P.CLY"
    else if strContains condition_lower "mostly sunny" then "M.SUN"
    else if strContains condition_lower "cloud" then "CLDY"
    else if strContains condition_lower "thunder" then "THRM"
    else if strContains condition_lower "rain" || strContains condition_lower "showers" then
      "RAIN"
    else if strContains condition_lower "snow" then "SNOW"
    else if strContains condition_lower "fog" || strContains condition_lower "mist" then "FOG"
    else if strContains condition_lower "wind" then "WIND"
    else "WX"

/-- `format_temperature` (`src/output.rs:10-18`); the conversion uses the
same constants as `src/client.rs` (`9/5` and `32`). -/
def format_temperature (temp_c : ℤ) (unit : TemperatureUnit) : ℤ × String :=
  match unit with
  | .Celsius => (temp_c, "°C")
  | .Fahrenheit => (f64round ((temp_c : ℚ) * (9/5) + 32), "°F")

/-- Structured JSON values, as built by the `serde_json::json!` macro in
`create_output` (`src/output.rs:29-38`).  Integers (`i64`) and floats
(`f64`, modelled as `ℚ`) are kept apart, as serde does. -/
inductive Json where
  | null
  | str (s : String)
  | int (n : ℤ)
  | num (q : ℚ)
  | obj (fields : List (String × Json))

/-- How `serde_json::json!` serialises an `Option<f64>` field: `null` when
absent, a number when present. -/
def jsonOfOpt : Option ℚ → Json
  | none => .null
  | some q => .num q

/-- Field lookup in a JSON object (reading a field of the parsed document). -/
def jsonLookup : Json → String → Option Json
  | .obj fields, k => lookupField fields k
  | _, _ => none
where
  /-- First binding of key `k` among the object fields. -/
  lookupField : List (String × Json) → String → Option Json
  | [], _ => none
  | (k', v) :: rest, k => if k' = k then some v else lookupField rest k

/-- Reading a numeric (float) JSON field back as the optional value it
encodes: `null` and non-numbers read as `none`. -/
def jsonReadNum (j : Option Json) : Option ℚ :=
  match j with
  | some (.num q) => some q
  | _ => none

/-- Reading an integer JSON field. -/
def jsonReadInt (j : Option Json) : Option ℤ :=
  match j with
  | some (.int n) => some n
  | _ => none

/-- The JSON object built by the `OutputFormat::Json` branch of
`create_output` (`src/output.rs:29-38`). -/
def create_output_json (location : Location) (weather : WeatherData) (args : Args) : Json :=
  let icon := get_weather_icon weather.condition args.icons
  let tu := format_temperature weather.temperature args.unit
  .obj [("location", .str location.name),
        ("temperature", .int tu.1),
        ("unit", .str tu.2),
        ("condition", .str weather.condition),
        ("icon", .str icon),
        ("humidity", jsonOfOpt weather.humidity),
        ("wind_speed", jsonOfOpt weather.wind_speed),
        ("wind_direction", jsonOfOpt weather.wind_direction)]

/-- `create_output` (`src/output.rs:20-77`).  The serde serialisers are
external library code and are abstracted as parameters: `render` stands for
`serde_json::to_string_pretty`, `renderWaybar` for `serde_json::to_string`
on `WaybarOutput`, and `displayFloat` for the default `{}` `Display`
formatting of an `f64` (used for the wind direction in the tooltip). -/
def create_output (render : Json → String) (renderWaybar : WaybarOutput → String)
    (displayFloat : ℚ → String)
    (location : Location) (weather : WeatherData) (args : Args) :
    Except WeatherError String :=
  let icon := get_weather_icon weather.condition args.icons
  let tu := format_temperature weather.temperature args.unit
  match args.format with
  | .Plain =>
    .ok (icon ++ " " ++ toString tu.1 ++ tu.2 ++ "  " ++ weather.condition)
  | .Json =>
    .ok (render (create_output_json location weather args))
  | .Waybar =>
    let text := icon ++ " " ++ toString tu.1 ++ tu.2
    let tooltip :=
      if args.detailed then
        let parts0 := [location.name ++ ": " ++ weather.condition,
                       "Temperature: " ++ toString tu.1 ++ tu.2]
        let parts1 :=
          match weather.humidity with
          | some humidity => parts0 ++ ["Humidity: " ++ fmt0 humidity ++ "%"]
          | none => parts0
        let parts2 :=
          match weather.wind_speed with
          | some wind_speed =>
            parts1 ++
              [match weather.wind_direction with
               | some wind_dir =>
                 "Wind: " ++ fmt0 (wind_speed * (2237/1000)) ++ " mph from " ++
                   displayFloat wind_dir ++ "°"
               | none => "Wind: " ++ fmt0 (wind_speed * (2237/1000)) ++ " mph"]
          | none => parts1
        String.intercalate "\n" parts2
      else
        location.name ++ ": " ++ weather.condition
    .ok (renderWaybar ⟨text, tooltip, "weather"⟩)
where
  /-- Rust `format!("{:.0}", x)`: sign of the value, then the absolute
  value rounded to an integer, ties to even. -/
  fmt0 (q : ℚ) : String :=
    let s := if q.num < 0 then "-" else ""
    s ++ toString (roundHalfEven (mkRat q.num.natAbs q.den)).toNat

/-- The forecast-derived baseline temperature (stage 3 of
`get_weather_data`, `src/client.rs:159-170`): the first period's
temperature, converted from Fahrenheit when its unit is `"F"`. -/
def forecastBaseline (p : ForecastPeriod) : ℤ :=
  if p.temperature_unit = "F" then
    f64round (((p.temperature : ℚ) - 32) / (9/5))
  else p.temperature

/-- A throwaway point response for concrete instantiations. -/
def nws0 : NWSPointResponse := ⟨⟨"TOP", 31, 80, "https://api.weather.gov/gridpoints/TOP/31,80/stations"⟩⟩

/-- An observation oracle that always fails (station unreachable). -/
def obsFail : String → Except WeatherError ObservationResponse :=
  fun _ => .error (.Api "HTTP 500: station down")

/-- A probe oracle for concrete instantiations: the network comes back in
round 3, where the second candidate (the IP literal 8.8.8.8) answers with
an HTTP 500 — still a response, hence connectivity. -/
def oracle0 : Nat → String → ProbeOutcome :=
  fun r u => if r = 3 ∧ u = "https://8.8.8.8" then .response 500 else .timedOut

/-- A float-string parser stub for concrete instantiations. -/
def parse0 : String → Except String ℚ :=
  fun s =>
    if s = "34.06" then .ok (mkRat 3406 100)
    else if s = "-118.3" then .ok (mkRat (-1183) 10)
    else .error ("invalid float literal: " ++ s)

/-- The sunny/clear (first-rule) icon of each set
(`src/icons.rs:8-9,43-44,66-67,89-90`). -/
def sunnyIcon : IconSet → String
  | .NerdFont => nfDaySunny
  | .Unicode => uniSunny
  | .Emoji => emoSunny
  | .Text => "SUN"

/-- The value of the `mostly sunny` branch of each set
(`src/icons.rs:12-13,47-48,70-71,93-94`). -/
def mostlySunnyIcon : IconSet → String
  | .NerdFont => nfDaySunnyOvercast
  | .Unicode => uniMostlySunny
  | .Emoji => emoMostlySunny
  | .Text => "M.SUN"

example : Client.get_with_retry
    [AttemptOutcome.transportError "a", .httpError 503 "busy", .success 42,
     .transportError "x", .transportError "y"] =
    (.ok 42, [2000, 4000], 3) := by decide

example : Client.get_with_retry
    ([.transportError "a", .transportError "b", .transportError "c",
      .transportError "d", .httpError 404 "nope"] : List (AttemptOutcome Nat)) =
    (.error (.Api "HTTP 404: nope"), [2000, 4000, 6000, 8000], 5) := by decide

example : f64round (mkRat 194 10) = 19 := by decide
example : f64round (mkRat 195 10) = 20 := by decide
example : f64round (mkRat (-195) 10) = -20 := by decide
example : f64round (mkRat (-194) 10) = -19 := by decide
example : fmt2 (mkRat 379 10) = "37.90" := by decide
example : fmt2 (mkRat (-1223) 10) = "-122.30" := by decide

/-- C1: when stages 1-3 succeed, a failed (or skipped, for an empty station
list) stage-4 observation fetch still yields `Ok` with the forecast-derived
baseline temperature and no humidity/wind; a successful observation
overrides the temperature with `round(temp_celsius)` exactly when the
observation's temperature value is present, and sets each of
humidity/wind_speed/wind_direction exactly when the corresponding field and
its value are present upstream. -/
theorem claim_c1_observation_merge (nws : NWSPointResponse) (p : ForecastPeriod)
    (rest : List ForecastPeriod)
    (obsF : String → Except WeatherError ObservationResponse) :
    (Client.get_weather_data ⟨.ok nws, .ok ⟨⟨p :: rest⟩⟩, .ok ⟨[]⟩, obsF⟩ =
      (.ok ⟨forecastBaseline p, p.short_forecast, none, none, none⟩, none))
    ∧ (∀ (st : StationFeature) (sts : List StationFeature) (e : WeatherError),
        obsF st.properties.station_identifier = .error e →
        Client.get_weather_data ⟨.ok nws, .ok ⟨⟨p :: rest⟩⟩, .ok ⟨st :: sts⟩, obsF⟩ =
          (.ok ⟨forecastBaseline p, p.short_forecast, none, none, none⟩,
           some st.properties.station_identifier))
    ∧ (∀ (st : StationFeature) (sts : List StationFeature) (obs : ObservationResponse),
        obsF st.properties.station_identifier = .ok obs →
        Client.get_weather_data ⟨.ok nws, .ok ⟨⟨p :: rest⟩⟩, .ok ⟨st :: sts⟩, obsF⟩ =
          (.ok ⟨(match obs.properties.temperature.value with
                 | some temp_c => f64round temp_c
                 | none => forecastBaseline p),
                p.short_forecast,
                obs.properties.relative_humidity.bind (fun h => h.value),
                obs.properties.wind_speed.bind (fun w => w.value),
                obs.properties.wind_direction.bind (fun w => w.value)⟩,
           some st.properties.station_identifier)) := by
  refine ⟨rfl, ?_, ?_⟩
  · intro st sts e h
    simp only [Client.get_weather_data, h, forecastBaseline,
      Client.CELSIUS_TO_FAHRENHEIT_OFFSET, Client.CELSIUS_TO_FAHRENHEIT_MULTIPLIER]
  · intro st sts obs h
    simp only [Client.get_weather_data, h, forecastBaseline,
      Client.CELSIUS_TO_FAHRENHEIT_OFFSET, Client.CELSIUS_TO_FAHRENHEIT_MULTIPLIER]

/-- C1 witness: the spec's example — baseline from a 68°C-free Celsius
forecast (18°C), observation reporting 19.4°C and 55% humidity, no wind
fields upstream: merged result is 19°C with humidity 55 and wind unset. -/
theorem claim_c1_observation_merge_witness :
    Client.get_weather_data
      ⟨.ok nws0, .ok ⟨⟨⟨18, "C", "Sunny"⟩ :: []⟩⟩, .ok ⟨⟨⟨"KTOP"⟩⟩ :: []⟩,
       fun _ => .ok ⟨⟨⟨some (mkRat 194 10)⟩, some ⟨some 55⟩, none, none⟩⟩⟩ =
      (.ok ⟨19, "Sunny", some 55, none, none⟩, some "KTOP") := by
  have h := (claim_c1_observation_merge nws0 ⟨18, "C", "Sunny"⟩ []
    (fun _ => .ok ⟨⟨⟨some (mkRat 194 10)⟩, some ⟨some 55⟩, none, none⟩⟩)).2.2
    ⟨⟨"KTOP"⟩⟩ [] ⟨⟨⟨some (mkRat 194 10)⟩, some ⟨some 55⟩, none, none⟩⟩ rfl
  rw [h]; decide

/-- C3: with stage 1 succeeded, a failed forecast fetch or a failed
station-list fetch fails the whole operation (the forecast error taking
precedence when both fail), and an empty forecast period list fails with
`NoWeatherData`; in all three cases no observation fetch is attempted. -/
theorem claim_c3_stage2_failures (nws : NWSPointResponse)
    (obsF : String → Except WeatherError ObservationResponse) :
    (∀ (e : WeatherError) (st : Except WeatherError StationsResponse),
        Client.get_weather_data ⟨.ok nws, .error e, st, obsF⟩ = (.error e, none))
    ∧ (∀ (f : ForecastResponse) (e : WeatherError),
        Client.get_weather_data ⟨.ok nws, .ok f, .error e, obsF⟩ = (.error e, none))
    ∧ (∀ (st : StationsResponse),
        Client.get_weather_data ⟨.ok nws, .ok ⟨⟨[]⟩⟩, .ok st, obsF⟩ =
          (.error .NoWeatherData, none)) := by
  refine ⟨fun e st => ?_, fun f e => rfl, fun st => rfl⟩
  cases st <;> rfl

/-- C3 witness: concrete instances of all three failure shapes. -/
theorem claim_c3_stage2_failures_witness :
    Client.get_weather_data
      ⟨.ok nws0, .error (.Api "HTTP 502: bad gateway"), .ok ⟨[]⟩, obsFail⟩ =
      (.error (.Api "HTTP 502: bad gateway"), none) ∧
    Client.get_weather_data
      ⟨.ok nws0, .ok ⟨⟨⟨68, "F", "Sunny"⟩ :: []⟩⟩, .error (.Network "timed out"), obsFail⟩ =
      (.error (.Network "timed out"), none) ∧
    Client.get_weather_data ⟨.ok nws0, .ok ⟨⟨[]⟩⟩, .ok ⟨⟨⟨"KTOP"⟩⟩ :: []⟩, obsFail⟩ =
      (.error .NoWeatherData, none) :=
  ⟨(claim_c3_stage2_failures nws0 obsFail).1 (.Api "HTTP 502: bad gateway") (.ok ⟨[]⟩),
   (claim_c3_stage2_failures nws0 obsFail).2.1 ⟨⟨⟨68, "F", "Sunny"⟩ :: []⟩⟩ (.Network "timed out"),
   (claim_c3_stage2_failures nws0 obsFail).2.2 ⟨⟨⟨"KTOP"⟩⟩ :: []⟩⟩

/-- C6: with stages 1-3 succeeded and no station available to override, a
first period in Fahrenheit yields baseline `round((F - 32) / 1.8)` and any
other unit string leaves the forecast temperature unchanged. -/
theorem claim_c6_unit_conversion (nws : NWSPointResponse) (t : ℤ)
    (u cond : String) (rest : List ForecastPeriod)
    (obsF : String → Except WeatherError ObservationResponse) :
    (Client.get_weather_data ⟨.ok nws, .ok ⟨⟨⟨t, "F", cond⟩ :: rest⟩⟩, .ok ⟨[]⟩, obsF⟩ =
      (.ok ⟨f64round (((t : ℚ) - 32) / 1.8), cond, none, none, none⟩, none))
    ∧ (u ≠ "F" →
        Client.get_weather_data ⟨.ok nws, .ok ⟨⟨⟨t, u, cond⟩ :: rest⟩⟩, .ok ⟨[]⟩, obsF⟩ =
          (.ok ⟨t, cond, none, none, none⟩, none)) := by
  constructor
  · rw [show (1.8 : ℚ) = 9/5 from by norm_num]
    rfl
  · intro hu
    simp only [Client.get_weather_data, if_neg hu]

/-- C6 witness: 68°F yields 20°C; a Celsius forecast of 68 stays 68. -/
theorem claim_c6_unit_conversion_witness :
    Client.get_weather_data ⟨.ok nws0, .ok ⟨⟨⟨68, "F", "Sunny"⟩ :: []⟩⟩, .ok ⟨[]⟩, obsFail⟩ =
      (.ok ⟨20, "Sunny", none, none, none⟩, none) ∧
    Client.get_weather_data ⟨.ok nws0, .ok ⟨⟨⟨68, "C", "Sunny"⟩ :: []⟩⟩, .ok ⟨[]⟩, obsFail⟩ =
      (.ok ⟨68, "Sunny", none, none, none⟩, none) := by
  constructor
  · rw [(claim_c6_unit_conversion nws0 68 "C" "Sunny" [] obsFail).1,
      show (((68 : ℤ) : ℚ) - 32) / 1.8 = (20 : ℚ) from by norm_num]
    decide
  · exact (claim_c6_unit_conversion nws0 68 "C" "Sunny" [] obsFail).2 (by decide)

/-- C4: a ZIP string that is not exactly 5 ASCII digits fails with
`InvalidZip` and issues no network call; a well-formed ZIP issues the
geocoding fetch, and then: with at least one place the result is the first
place's name and the float-parses of its latitude/longitude strings (a
parse failure surfacing as the distinct `Parse` error), and with zero
places the result is `LocationNotFound`. -/
theorem claim_c4_zip_resolution (parse : String → Except String ℚ)
    (geocode : Except WeatherError ZippopotamResponse) (zip : String) :
    (¬(zip.length = 5 ∧ zip.data.all (fun c => c.isDigit) = true) →
      Client.resolve_zip_location parse geocode zip = (.error (.InvalidZip zip), false))
    ∧ (zip.length = 5 → zip.data.all (fun c => c.isDigit) = true →
      (Client.resolve_zip_location parse geocode zip).2 = true
      ∧ (∀ (place : ZippopotamPlace) (more : List ZippopotamPlace),
          geocode = .ok ⟨place :: more⟩ →
          (∀ la lo, parse place.latitude = .ok la → parse place.longitude = .ok lo →
            (Client.resolve_zip_location parse geocode zip).1 =
              .ok ⟨la, lo, place.place_name⟩)
          ∧ (∀ e, parse place.latitude = .error e →
              (Client.resolve_zip_location parse geocode zip).1 = .error (.Parse e))
          ∧ (∀ la e, parse place.latitude = .ok la → parse place.longitude = .error e →
              (Client.resolve_zip_location parse geocode zip).1 = .error (.Parse e)))
      ∧ (geocode = .ok ⟨[]⟩ →
          (Client.resolve_zip_location parse geocode zip).1 = .error .LocationNotFound)) := by
  have hcond : ∀ (h5 : zip.length = 5) (hd : zip.data.all (fun c => c.isDigit) = true),
      (!zip.data.all (fun c => c.isDigit) || zip.length != 5) = false := by
    intro h5 hd
    simp [h5, hd]
  constructor
  · intro hbad
    rw [Client.resolve_zip_location.eq_def, if_pos]
    rcases Decidable.em (zip.length = 5) with h5 | h5
    · rcases Decidable.em (zip.data.all (fun c => c.isDigit) = true) with hd | hd
      · exact absurd ⟨h5, hd⟩ hbad
      · simp [hd]
    · simp [h5]
  · intro h5 hd
    refine ⟨?_, ?_, ?_⟩
    · rw [Client.resolve_zip_location.eq_def,
        if_neg (by rw [hcond h5 hd]; exact fun h => Bool.false_ne_true h)]
      cases geocode with
      | error e => rfl
      | ok r =>
        cases r with
        | mk places =>
          cases places with
          | nil => rfl
          | cons place more =>
            simp only
            cases parse place.latitude with
            | error e => rfl
            | ok la =>
              cases parse place.longitude with
              | error e => rfl
              | ok lo => rfl
    · intro place more hg
      subst hg
      refine ⟨fun la lo hla hlo => ?_, fun e hla => ?_, fun la e hla hlo => ?_⟩ <;>
        rw [Client.resolve_zip_location.eq_def,
          if_neg (by rw [hcond h5 hd]; exact fun h => Bool.false_ne_true h)] <;>
        simp only [hla] <;> try simp only [hlo]
    · intro hg
      subst hg
      rw [Client.resolve_zip_location.eq_def,
        if_neg (by rw [hcond h5 hd]; exact fun h => Bool.false_ne_true h)]

/-- C4 witness: "9021A" is rejected without a fetch; "90210" with a mocked
one-place response resolves to the parsed coordinates and place name. -/
theorem claim_c4_zip_resolution_witness :
    Client.resolve_zip_location parse0 (.ok ⟨⟨"Beverly Hills", "-118.3", "34.06"⟩ :: []⟩) "9021A" =
      (.error (.InvalidZip "9021A"), false) ∧
    (Client.resolve_zip_location parse0 (.ok ⟨⟨"Beverly Hills", "-118.3", "34.06"⟩ :: []⟩) "90210").1 =
      .ok ⟨mkRat 3406 100, mkRat (-1183) 10, "Beverly Hills"⟩ :=
  ⟨(claim_c4_zip_resolution parse0 (.ok ⟨⟨"Beverly Hills", "-118.3", "34.06"⟩ :: []⟩) "9021A").1
      (by decide),
   (((claim_c4_zip_resolution parse0 (.ok ⟨⟨"Beverly Hills", "-118.3", "34.06"⟩ :: []⟩) "90210").2
      (by decide) (by decide)).2.1 ⟨"Beverly Hills", "-118.3", "34.06"⟩ [] rfl).1
      (mkRat 3406 100) (mkRat (-1183) 10) (by decide) (by decide)⟩

/-- C5: with no ZIP and both coordinates given, out-of-range coordinates
fail with `InvalidCoordinates`; in-range coordinates succeed with no
network call and the synthesized two-decimal display name; and with
neither a ZIP nor both coordinates the resolver fails with
`LocationNotFound`. -/
theorem claim_c5_coordinate_resolution (parse : String → Except String ℚ)
    (geocode : Except WeatherError ZippopotamResponse) (la lo : ℚ) :
    (¬(-90 ≤ la ∧ la ≤ 90) ∨ ¬(-180 ≤ lo ∧ lo ≤ 180) →
      Client.resolve_location parse geocode none (some la) (some lo) =
        (.error .InvalidCoordinates, false))
    ∧ (-90 ≤ la → la ≤ 90 → -180 ≤ lo → lo ≤ 180 →
      Client.resolve_location parse geocode none (some la) (some lo) =
        (.ok ⟨la, lo, "Coordinates (" ++ fmt2 la ++ ", " ++ fmt2 lo ++ ")"⟩, false))
    ∧ Client.resolve_location parse geocode none none none =
        (.error .LocationNotFound, false)
    ∧ Client.resolve_location parse geocode none (some la) none =
        (.error .LocationNotFound, false)
    ∧ Client.resolve_location parse geocode none none (some lo) =
        (.error .LocationNotFound, false) := by
  refine ⟨fun hbad => ?_, fun h1 h2 h3 h4 => ?_, rfl, rfl, rfl⟩
  · rw [Client.resolve_location, Client.validate_coordinates, if_pos hbad]
  · rw [Client.resolve_location, Client.validate_coordinates,
      if_neg (by push_neg; exact ⟨⟨h1, h2⟩, h3, h4⟩)]

/-- C5 witness: (37.9, -122.3) resolves with the two-decimal display name
and no fetch; latitude 91 is rejected. -/
theorem claim_c5_coordinate_resolution_witness :
    Client.resolve_location parse0 (.error .LocationNotFound) none
        (some (mkRat 379 10)) (some (mkRat (-1223) 10)) =
      (.ok ⟨mkRat 379 10, mkRat (-1223) 10, "Coordinates (37.90, -122.30)"⟩, false) ∧
    Client.resolve_location parse0 (.error .LocationNotFound) none
        (some 91) (some 0) =
      (.error .InvalidCoordinates, false) := by
  constructor
  · rw [(claim_c5_coordinate_resolution parse0 (.error .LocationNotFound)
      (mkRat 379 10) (mkRat (-1223) 10)).2.1 (by decide) (by decide) (by decide) (by decide)]
    decide
  · exact (claim_c5_coordinate_resolution parse0 (.error .LocationNotFound) 91 0).1
      (Or.inl (by decide))

/-- C7: the output formatter is deterministic on its inputs (the embedding
is a pure function), the `json` format renders exactly the structured
object `create_output_json`, and reading that object's `temperature`,
`humidity` and `wind_speed` fields back recovers the values that were
formatted into it. -/
theorem claim_c7_output_roundtrip (render : Json → String)
    (renderWaybar : WaybarOutput → String) (displayFloat : ℚ → String)
    (location : Location) (weather : WeatherData) (args : Args) :
    create_output render renderWaybar displayFloat location weather args =
      create_output render renderWaybar displayFloat location weather args
    ∧ create_output render renderWaybar displayFloat location weather
        { args with format := .Json } =
        .ok (render (create_output_json location weather { args with format := .Json }))
    ∧ jsonReadInt (jsonLookup (create_output_json location weather args) "temperature") =
        some (format_temperature weather.temperature args.unit).1
    ∧ jsonReadNum (jsonLookup (create_output_json location weather args) "humidity") =
        weather.humidity
    ∧ jsonReadNum (jsonLookup (create_output_json location weather args) "wind_speed") =
        weather.wind_speed := by
  obtain ⟨t, c, hum, ws, wd⟩ := weather
  refine ⟨rfl, rfl, rfl, ?_, ?_⟩
  · cases hum <;> rfl
  · cases ws <;> rfl

/-- `matchesAt` at the head implies containment. -/
theorem hasSub_of_matchesAt (pat s : List Char) (h : matchesAt pat s = true) :
    hasSub pat s = true := by
  cases s with
  | nil => simpa [hasSub] using h
  | cons c rest => simp [hasSub, h]

/-- A match of `p ++ q` at the head yields `q` somewhere inside. -/
theorem hasSub_of_matchesAt_append (p q : List Char) :
    ∀ s : List Char, matchesAt (p ++ q) s = true → hasSub q s = true := by
  induction p with
  | nil => exact fun s h => hasSub_of_matchesAt q s h
  | cons a p ih =>
    intro s h
    cases s with
    | nil => simp [matchesAt] at h
    | cons c rest =>
      simp only [List.cons_append, matchesAt, Bool.and_eq_true] at h
      have := ih rest h.2
      simp [hasSub, this]

/-- Substring containment is monotone under dropping a pattern front:
if `s` contains `p ++ q` then `s` contains `q`. -/
theorem hasSub_append_left (p q : List Char) :
    ∀ s : List Char, hasSub (p ++ q) s = true → hasSub q s = true := by
  intro s
  induction s with
  | nil => exact fun h => hasSub_of_matchesAt_append p q [] (by simpa [hasSub] using h)
  | cons c rest ih =>
    intro h
    rcases Bool.or_eq_true_iff.mp (by simpa [hasSub] using h) with h1 | h2
    · exact hasSub_of_matchesAt_append p q (c :: rest) h1
    · simp [hasSub, ih h2]

/-- Any string containing `"mostly sunny"` contains `"sunny"`. -/
theorem strContains_sunny_of_mostly (s : String)
    (h : strContains s "mostly sunny" = true) : strContains s "sunny" = true :=
  hasSub_append_left "mostly ".data "sunny".data s.data h

/-- C10 counterexample: the claim "for no input string does
`get_weather_icon` ever return the value of the `mostly sunny` branch" is
false: for the NerdFont set the input "Cloudy" returns exactly that value,
because the cloud branch's string literal is identical to the
`mostly sunny` branch's literal. -/
theorem claim_c10_counterexample :
    get_weather_icon "Cloudy" IconSet.NerdFont = mostlySunnyIcon IconSet.NerdFont := by
  decide

set_option maxHeartbeats 1000000 in
/-- C10 (amended): every condition whose lowercase form contains "sunny"
gets the set's sunny/clear icon; consequently the `mostly sunny` branch is
unreachable — any condition containing "mostly sunny" also takes the first
rule — and for the Unicode, Emoji and Text sets (whose mostly-sunny
literals are distinct from every other branch literal) the mostly-sunny
icon value is never returned for any input. -/
theorem claim_c10_mostly_sunny_unreachable :
    (∀ (icon_set : IconSet) (condition : String),
        strContains (rustToLower condition) "sunny" = true →
        get_weather_icon condition icon_set = sunnyIcon icon_set)
    ∧ (∀ (icon_set : IconSet) (condition : String),
        strContains (rustToLower condition) "mostly sunny" = true →
        get_weather_icon condition icon_set = sunnyIcon icon_set)
    ∧ (∀ condition : String,
        get_weather_icon condition IconSet.Unicode ≠ mostlySunnyIcon IconSet.Unicode
        ∧ get_weather_icon condition IconSet.Emoji ≠ mostlySunnyIcon IconSet.Emoji
        ∧ get_weather_icon condition IconSet.Text ≠ mostlySunnyIcon IconSet.Text) := by
  have hsunny : ∀ (icon_set : IconSet) (condition : String),
      strContains (rustToLower condition) "sunny" = true →
      get_weather_icon condition icon_set = sunnyIcon icon_set := by
    intro icon_set condition h
    cases icon_set <;> simp [get_weather_icon, sunnyIcon, h]
  refine ⟨hsunny, fun is c h => hsunny is c (strContains_sunny_of_mostly _ h), ?_⟩
  intro condition
  cases hms : strContains (rustToLower condition) "mostly sunny" with
  | true =>
    refine ⟨?_, ?_, ?_⟩ <;>
      rw [hsunny _ condition (strContains_sunny_of_mostly _ hms)] <;> decide
  | false =>
    refine ⟨?_, ?_, ?_⟩ <;>
      · simp only [get_weather_icon, hms]
        split_ifs <;> first | contradiction | decide

/-- C10 witness: "Mostly Sunny" takes the first (sunny) rule in every set,
e.g. the Text set yields "SUN", not "M.SUN". -/
theorem claim_c10_witness :
    get_weather_icon "Mostly Sunny" IconSet.Text = "SUN" :=
  claim_c10_mostly_sunny_unreachable.2.1 IconSet.Text "Mostly Sunny" (by decide)

/-- One failed attempt: the loop records `outcomeError o`, sleeps
`baseDelay * attempt` only when attempts remain, and consumes one attempt. -/
theorem retryGo_cons_fail {α : Type} (d a : Nat) (last : Option WeatherError)
    (o : AttemptOutcome α) (rest : List (AttemptOutcome α))
    (ho : o.isSuccess = false) :
    Client.retryGo d a last (o :: rest) =
      ((Client.retryGo d (a + 1) (some (outcomeError o)) rest).1,
       (if rest.isEmpty then (Client.retryGo d (a + 1) (some (outcomeError o)) rest).2.1
        else d * a :: (Client.retryGo d (a + 1) (some (outcomeError o)) rest).2.1),
       (Client.retryGo d (a + 1) (some (outcomeError o)) rest).2.2 + 1) := by
  cases o with
  | transportError m => rfl
  | httpError s b => rfl
  | decodeError m => rfl
  | success v => simp [AttemptOutcome.isSuccess] at ho

/-- The retry loop consumes at most as many attempts as it is given. -/
theorem retryGo_count_le {α : Type} (d : Nat) :
    ∀ (os : List (AttemptOutcome α)) (a : Nat) (last : Option WeatherError),
      (Client.retryGo d a last os).2.2 ≤ os.length := by
  intro os
  induction os with
  | nil => intro a last; simp [Client.retryGo]
  | cons o rest ih =>
    intro a last
    by_cases ho : o.isSuccess = true
    · cases o <;> simp [AttemptOutcome.isSuccess] at ho ⊢
      simp [Client.retryGo]
    · rw [retryGo_cons_fail d a last o rest (Bool.not_eq_true _ ▸ ho)]
      simpa using Nat.succ_le_succ (ih (a + 1) (some (outcomeError o)))

/-- If every attempt before position `n` fails and attempt `n` succeeds,
the loop returns that decoded value, sleeps exactly the linear-backoff
delays `d·a, d·(a+1), …` for the failed attempts, and consumes `n`
attempts. -/
theorem retryGo_first_success {α : Type} (d : Nat) (v : α) :
    ∀ (pre post : List (AttemptOutcome α)) (a : Nat) (last : Option WeatherError),
      (∀ o ∈ pre, o.isSuccess = false) →
      Client.retryGo d a last (pre ++ .success v :: post) =
        (.ok v, (List.range' a pre.length).map (fun k => d * k), pre.length + 1) := by
  intro pre
  induction pre with
  | nil => intro post a last _; simp [Client.retryGo]
  | cons o pre ih =>
    intro post a last h
    have ho : o.isSuccess = false := h o (List.mem_cons_self o pre)
    have hpre : ∀ x ∈ pre, x.isSuccess = false := fun x hx => h x (List.mem_cons_of_mem _ hx)
    rw [List.cons_append, retryGo_cons_fail d a last o _ ho,
      ih post (a + 1) (some (outcomeError o)) hpre]
    have hne : (pre ++ AttemptOutcome.success v :: post).isEmpty = false := by
      cases pre <;> rfl
    rw [hne]
    show (_, d * a :: List.map _ (List.range' (a + 1) pre.length), _) =
      (_, List.map _ (List.range' a (pre.length + 1)), _)
    rw [show List.range' a (pre.length + 1) = a :: List.range' (a + 1) pre.length from rfl]
    rfl

/-- If every attempt fails, the loop returns the error recorded for the
last attempt, after sleeping the backoff delays for all attempts but the
last, consuming all attempts. -/
theorem retryGo_all_fail {α : Type} (d : Nat) :
    ∀ (os : List (AttemptOutcome α)) (a : Nat) (last : Option WeatherError)
      (o : AttemptOutcome α),
      (∀ x ∈ os, x.isSuccess = false) → os.getLast? = some o →
      Client.retryGo d a last os =
        (.error (outcomeError o),
         (List.range' a (os.length - 1)).map (fun k => d * k), os.length) := by
  intro os
  induction os with
  | nil => intro a last o _ hlast; simp at hlast
  | cons x rest ih =>
    intro a last o h hlast
    have hx : x.isSuccess = false := h x (List.mem_cons_self x rest)
    rw [retryGo_cons_fail d a last x rest hx]
    cases rest with
    | nil =>
      have : o = x := by simpa using hlast.symm
      subst this
      simp [Client.retryGo]
    | cons y rest' =>
      have h' : ∀ z ∈ y :: rest', z.isSuccess = false :=
        fun z hz => h z (List.mem_cons_of_mem _ hz)
      have hlast' : (y :: rest').getLast? = some o := by
        rwa [List.getLast?_cons_cons] at hlast
      rw [ih (a + 1) (some (outcomeError x)) o h' hlast']
      show (_, d * a :: List.map _ (List.range' (a + 1) ((y :: rest').length - 1)), _) =
        (_, List.map _ (List.range' a ((x :: y :: rest').length - 1)), _)
      rw [show (y :: rest').length - 1 = rest'.length from rfl,
        show (x :: y :: rest').length - 1 = rest'.length + 1 from rfl,
        show List.range' a (rest'.length + 1) = a :: List.range' (a + 1) rest'.length from rfl]
      rfl

/-- C2: over a full window of `MAX_RETRIES` attempt outcomes,
`get_with_retry` consumes at most `MAX_RETRIES` attempts; a non-2xx
response is recorded as the `Api` error carrying its status code and body;
the first successful (2xx + decoded) attempt's value is returned `Ok`,
after exactly the linear-backoff waits `RETRY_DELAY_MS * k` for each prior
failed attempt `k`; and when every attempt fails the result is the most
recently recorded error, i.e. the error of the last attempt, after the
backoff waits for all attempts but the last. -/
theorem claim_c2_retry_policy {α : Type} (outcomes : List (AttemptOutcome α))
    (hlen : outcomes.length = Client.MAX_RETRIES) :
    (Client.get_with_retry outcomes).2.2 ≤ Client.MAX_RETRIES
    ∧ (∀ (s : Nat) (b : String),
        outcomeError (AttemptOutcome.httpError s b : AttemptOutcome α) =
          .Api (httpErrorText s b))
    ∧ (∀ (pre : List (AttemptOutcome α)) (v : α) (post : List (AttemptOutcome α)),
        outcomes = pre ++ .success v :: post →
        (∀ o ∈ pre, o.isSuccess = false) →
        Client.get_with_retry outcomes =
          (.ok v, (List.range' 1 pre.length).map (fun k => Client.RETRY_DELAY_MS * k),
           pre.length + 1))
    ∧ (∀ o : AttemptOutcome α, (∀ x ∈ outcomes, x.isSuccess = false) →
        outcomes.getLast? = some o →
        Client.get_with_retry outcomes =
          (.error (outcomeError o),
           (List.range' 1 (Client.MAX_RETRIES - 1)).map (fun k => Client.RETRY_DELAY_MS * k),
           Client.MAX_RETRIES)) := by
  refine ⟨?_, fun s b => rfl, ?_, ?_⟩
  · rw [← hlen]
    exact retryGo_count_le Client.RETRY_DELAY_MS outcomes 1 none
  · intro pre v post heq hpre
    rw [Client.get_with_retry, heq, retryGo_first_success Client.RETRY_DELAY_MS v pre post 1 none hpre]
  · intro o hall hlast
    rw [Client.get_with_retry,
      retryGo_all_fail Client.RETRY_DELAY_MS outcomes 1 none o hall hlast, hlen]

/-- C2 witness: two failures then a success on attempt 3 yields the decoded
value after sleeping 2000 ms and 4000 ms; five failures yield the last
error — the status-and-body-preserving `Api` error of attempt 5 — after
sleeping 2000/4000/6000/8000 ms. -/
theorem claim_c2_retry_policy_witness :
    Client.get_with_retry
        [AttemptOutcome.transportError "connection refused", .httpError 503 "busy",
         .success 42, .transportError "x", .transportError "y"] =
      (.ok 42, [2000, 4000], 3) ∧
    Client.get_with_retry
        ([.transportError "a", .decodeError "bad json", .transportError "c",
          .transportError "d", .httpError 404 "not found"] : List (AttemptOutcome Nat)) =
      (.error (.Api (httpErrorText 404 "not found")), [2000, 4000, 6000, 8000], 5) := by
  constructor
  · rw [(claim_c2_retry_policy
        [AttemptOutcome.transportError "connection refused", .httpError 503 "busy",
         .success 42, .transportError "x", .transportError "y"] rfl).2.2.1
        [AttemptOutcome.transportError "connection refused", .httpError 503 "busy"] 42
        [AttemptOutcome.transportError "x", .transportError "y"] rfl (by decide)]
    decide
  · rw [(claim_c2_retry_policy
        ([.transportError "a", .decodeError "bad json", .transportError "c",
          .transportError "d", .httpError 404 "not found"] : List (AttemptOutcome Nat)) rfl).2.2.2
        (.httpError 404 "not found") (by decide) rfl]
    decide

/-- A probe round in which no candidate yields a response returns false
after probing every candidate. -/
theorem probeRound_none (oracle : Nat → String → ProbeOutcome) (r : Nat) :
    ∀ urls : List String, (∀ u ∈ urls, ∀ s, oracle r u ≠ .response s) →
    Client.probeRound oracle r urls = (false, urls.length) := by
  intro urls
  induction urls with
  | nil => intro _; rfl
  | cons u rest ih =>
    intro h
    have hu := h u (List.mem_cons_self u rest)
    have hrest : ∀ u' ∈ rest, ∀ s, oracle r u' ≠ .response s :=
      fun u' hu' => h u' (List.mem_cons_of_mem _ hu')
    cases hc : oracle r u with
    | response s => exact absurd hc (hu s)
    | timedOut => simp [Client.probeRound, hc, ih hrest]
    | sendError m => simp [Client.probeRound, hc, ih hrest]

/-- A probe round succeeds on the first candidate (in order) that yields
any response, regardless of its status code, after probing exactly the
candidates up to and including it. -/
theorem probeRound_first (oracle : Nat → String → ProbeOutcome) (r : Nat) :
    ∀ (pre : List String) (u : String) (post : List String) (s : Nat),
      (∀ u' ∈ pre, ∀ s', oracle r u' ≠ .response s') →
      oracle r u = .response s →
      Client.probeRound oracle r (pre ++ u :: post) = (true, pre.length + 1) := by
  intro pre
  induction pre with
  | nil => intro u post s _ hu; simp [Client.probeRound, hu]
  | cons x pre ih =>
    intro u post s h hu
    have hx := h x (List.mem_cons_self x pre)
    have hpre : ∀ u' ∈ pre, ∀ s', oracle r u' ≠ .response s' :=
      fun u' hu' => h u' (List.mem_cons_of_mem _ hu')
    cases hc : oracle r x with
    | response s' => exact absurd hc (hx s')
    | timedOut =>
      simp only [List.cons_append, Client.probeRound, hc, List.append_eq]
      rw [ih u post s hpre hu]
      rfl
    | sendError m =>
      simp only [List.cons_append, Client.probeRound, hc, List.append_eq]
      rw [ih u post s hpre hu]
      rfl

/-- If no candidate responds in any remaining round, the loop fails with
the connectivity error after sleeping between all consecutive rounds and
probing every candidate of every round. -/
theorem wfnLoop_all_fail (oracle : Nat → String → ProbeOutcome) :
    ∀ rounds : List Nat,
      (∀ r ∈ rounds, ∀ u ∈ Client.test_urls, ∀ s, oracle r u ≠ .response s) →
      Client.wfnLoop oracle rounds =
        (.error (.Api "Network connectivity check failed"),
         rounds.length - 1, 3 * rounds.length) := by
  intro rounds
  induction rounds with
  | nil => intro _; rfl
  | cons r rest ih =>
    intro h
    have hr : Client.probeRound oracle r Client.test_urls = (false, 3) :=
      probeRound_none oracle r Client.test_urls (h r (List.mem_cons_self r rest))
    have hrest := ih (fun r' h' => h r' (List.mem_cons_of_mem _ h'))
    simp only [Client.wfnLoop, hr]
    rw [hrest]
    cases rest with
    | nil => rfl
    | cons y rest' =>
      simp [Prod.mk.injEq]
      all_goals omega

/-- If the first response over the round-major, candidate-minor probe order
arrives in round `r` at the candidate after `pre`, the loop succeeds having
slept between the preceding rounds only and probed exactly the prior
candidates plus this one. -/
theorem wfnLoop_first_success (oracle : Nat → String → ProbeOutcome) :
    ∀ (preRounds : List Nat) (r : Nat) (postRounds : List Nat) (pre : List String)
      (u : String) (post : List String) (s : Nat),
      (∀ r' ∈ preRounds, ∀ u' ∈ Client.test_urls, ∀ s', oracle r' u' ≠ .response s') →
      Client.test_urls = pre ++ u :: post →
      (∀ u' ∈ pre, ∀ s', oracle r u' ≠ .response s') →
      oracle r u = .response s →
      Client.wfnLoop oracle (preRounds ++ r :: postRounds) =
        (.ok (), preRounds.length, 3 * preRounds.length + pre.length + 1) := by
  intro preRounds
  induction preRounds with
  | nil =>
    intro r postRounds pre u post s _ hurls hpre hu
    have hp : Client.probeRound oracle r Client.test_urls = (true, pre.length + 1) := by
      rw [hurls]; exact probeRound_first oracle r pre u post s hpre hu
    simp [Client.wfnLoop, hp]
  | cons q qrest ih =>
    intro r postRounds pre u post s hfail hurls hpre hu
    have hq : Client.probeRound oracle q Client.test_urls = (false, 3) :=
      probeRound_none oracle q Client.test_urls (hfail q (List.mem_cons_self q qrest))
    have hne : (qrest ++ r :: postRounds).isEmpty = false := by cases qrest <;> rfl
    have hih := ih r postRounds pre u post s
      (fun r' h' => hfail r' (List.mem_cons_of_mem _ h')) hurls hpre hu
    simp [Client.wfnLoop, hq, List.append_eq, hih, hne]
    all_goals omega

/-- C8: the readiness prober polls the candidates in order within each of
the rounds 1..10, succeeding on the first candidate of the first round
that yields any HTTP response regardless of status (having slept the round
delay between the preceding rounds), and failing with the connectivity
error after all 10 rounds pass without any response (9 inter-round sleeps,
30 probes). -/
theorem claim_c8_readiness_probe (oracle : Nat → String → ProbeOutcome) :
    (∀ r : Nat, 1 ≤ r → r ≤ 10 →
      ∀ (pre : List String) (u : String) (post : List String) (s : Nat),
        (∀ r' u', 1 ≤ r' → r' < r → ∀ s', oracle r' u' ≠ .response s') →
        Client.test_urls = pre ++ u :: post →
        (∀ u' ∈ pre, ∀ s', oracle r u' ≠ .response s') →
        oracle r u = .response s →
        Client.wait_for_network oracle = (.ok (), r - 1, 3 * (r - 1) + pre.length + 1))
    ∧ ((∀ r, 1 ≤ r → r ≤ 10 → ∀ u ∈ Client.test_urls, ∀ s, oracle r u ≠ .response s) →
        Client.wait_for_network oracle =
          (.error (.Api "Network connectivity check failed"), 9, 30)) := by
  constructor
  · intro r h1 h10 pre u post s hprev hurls hpre hu
    have happ := List.range'_append_1 1 (r - 1) (10 - r + 1)
    rw [show 1 + (r - 1) = r from by omega, show 10 - r + 1 + (r - 1) = 10 from by omega,
      show List.range' r (10 - r + 1) = r :: List.range' (r + 1) (10 - r) from rfl] at happ
    have hfailpre : ∀ r' ∈ List.range' 1 (r - 1), ∀ u' ∈ Client.test_urls, ∀ s',
        oracle r' u' ≠ .response s' := by
      intro r' hr' u' _ s'
      rcases List.mem_range'.mp hr' with ⟨i, hi, rfl⟩
      exact hprev (1 + 1 * i) u' (by omega) (by omega) s'
    rw [Client.wait_for_network, ← happ,
      wfnLoop_first_success oracle (List.range' 1 (r - 1)) r (List.range' (r + 1) (10 - r))
        pre u post s hfailpre hurls hpre hu, List.length_range']
  · intro hall
    have hfail : ∀ r' ∈ List.range' 1 10, ∀ u ∈ Client.test_urls, ∀ s,
        oracle r' u ≠ .response s := by
      intro r' hr'
      rcases List.mem_range'.mp hr' with ⟨i, hi, rfl⟩
      exact hall (1 + 1 * i) (by omega) (by omega)
    rw [Client.wait_for_network, wfnLoop_all_fail oracle (List.range' 1 10) hfail,
      List.length_range']

/-- C8 witness: with the network back in round 3 at the second candidate,
the prober succeeds after 2 inter-round sleeps and 8 probes (3 + 3 + 2). -/
theorem claim_c8_readiness_probe_witness :
    Client.wait_for_network oracle0 = (.ok (), 2, 8) := by
  have hprev : ∀ r' u', 1 ≤ r' → r' < 3 → ∀ s', oracle0 r' u' ≠ .response s' := by
    intro r' u' _ h3 s' hc
    have hne : ¬(r' = 3 ∧ u' = "https://8.8.8.8") := fun ⟨he, _⟩ => by omega
    simp [oracle0, hne] at hc
  have hpre : ∀ u' ∈ ["https://api.weather.gov"], ∀ s', oracle0 3 u' ≠ .response s' := by
    intro u' hu' s' hc
    simp only [List.mem_singleton] at hu'
    subst hu'
    simp [oracle0] at hc
  have h := (claim_c8_readiness_probe oracle0).1 3 (by omega) (by omega)
    ["https://api.weather.gov"] "https://8.8.8.8" ["https://1.1.1.1"] 500
    hprev rfl hpre (by decide)
  rw [h]
  decide

/-- The duplicated retry loops are the same function of the backoff base
delay. -/
theorem retryGo_proto_eq {α : Type} (d : Nat) :
    ∀ (os : List (AttemptOutcome α)) (a : Nat) (last : Option WeatherError),
      Mainrs.retryGo d a last os = Client.retryGo d a last os := by
  intro os
  induction os with
  | nil => intro a last; rfl
  | cons o rest ih =>
    intro a last
    cases o <;> simp [Mainrs.retryGo, Client.retryGo, ih]

/-- C9: the prototype implementation embedded in `src/main.rs` computes
the same results as the library implementation in `src/client.rs`, once
the configuration constants are identified: the retry loops are one
function of the base delay, instantiated at 1000 ms / list length 3
(main.rs) versus 2000 ms / list length 5 (client.rs); `resolve_location`
(with `resolve_zip_location` and `validate_coordinates`) and
`get_weather_data` are extensionally equal outright.  The per-request
timeouts (10 s vs 15 s) live in the HTTP client construction, which the
transport oracle absorbs. -/
theorem claim_c9_prototype_equivalence :
    (∀ (α : Type) (d a : Nat) (last : Option WeatherError) (os : List (AttemptOutcome α)),
        Mainrs.retryGo d a last os = Client.retryGo d a last os)
    ∧ (∀ (α : Type) (os : List (AttemptOutcome α)),
        Mainrs.get_with_retry os = Mainrs.retryGo Mainrs.RETRY_DELAY_MS 1 none os
        ∧ Client.get_with_retry os = Client.retryGo Client.RETRY_DELAY_MS 1 none os)
    ∧ (∀ (parse : String → Except String ℚ)
         (geocode : Except WeatherError ZippopotamResponse)
         (zip : Option String) (lat lon : Option ℚ),
        Mainrs.resolve_location parse geocode zip lat lon =
          Client.resolve_location parse geocode zip lat lon)
    ∧ (∀ env : FetchEnv,
        Mainrs.get_weather_data env = Client.get_weather_data env)
    ∧ Mainrs.MAX_RETRIES = 3 ∧ Client.MAX_RETRIES = 5
    ∧ Mainrs.RETRY_DELAY_MS = 1000 ∧ Client.RETRY_DELAY_MS = 2000 := by
  refine ⟨fun α d a last os => retryGo_proto_eq d os a last,
    fun α os => ⟨rfl, rfl⟩, fun parse geocode zip lat lon => rfl,
    fun env => rfl, rfl, rfl, rfl, rfl⟩
